import Mathlib

/-!
Verification of the audio-to-media generation pipeline
(`services/audio_processor.py`, `services/video_prompt.py`,
`configs/veo_client.py`, `services/db/neon.py`).

External capabilities (OpenAI calls, the Veo HTTP API, Cloudinary, the
filesystem) are modelled as oracles: each call site is represented by an
`Except String _` value (or a function of the call's input) supplied in an
environment record.  An `Except.error` models the Python call raising an
exception whose message is the carried string.  Control flow — which calls
are made, which exceptions are caught where, what is written to the
status store — is translated from the Python source.
-/

namespace PixelTalk

/-- Python's `str.strip()`: drop leading and trailing whitespace.
(Defined over the character list so it computes by kernel reduction;
`String.trim` is definitionally equivalent but reduction-opaque.) -/
def pyStrip (s : String) : String :=
  ⟨((s.data.dropWhile Char.isWhitespace).reverse.dropWhile
      Char.isWhitespace).reverse⟩

/-- Python's `str.lower()`, over the character list. -/
def pyLower (s : String) : String :=
  ⟨s.data.map Char.toLower⟩

/-- The structured video brief (`VideoPrompt` pydantic model of
`services/video_prompt.py`): `model_dump()` always yields all ten keys. -/
structure StructuredPrompt where
  description : String
  style : String
  camera : String
  lighting : String
  environment : String
  elements : List String
  motion : String
  ending : String
  text : String
  keywords : List String
deriving DecidableEq, Repr

/-- `VideoPromptGenerator.format_for_veo` (`services/video_prompt.py`,
lines 155-204), translated clause by clause.  Python truthiness of a string
is `≠ ""`, of a list is `≠ []`; `" ".join` is `String.intercalate " "`;
`structured_prompt.get('text', 'none').lower()` is `pyLower p.text` since the
brief dict always carries the `text` key. -/
def format_for_veo (p : StructuredPrompt) : String :=
  let parts : List String := [p.description]
  let parts := parts ++ ["Visual style: " ++ p.style ++ "."]
  let parts := parts ++ ["Camera: " ++ p.camera ++ "."]
  let parts := parts ++ ["Lighting: " ++ p.lighting ++ "."]
  let parts := parts ++
    (if p.environment ≠ "" then ["Setting: " ++ p.environment ++ "."] else [])
  let parts := parts ++
    (if p.elements ≠ [] then
      [(let elementsText :=
          "The scene includes " ++ String.intercalate ", " (p.elements.take 5)
        let elementsText :=
          if p.elements.length > 5 then
            elementsText ++ ", and " ++ toString (p.elements.length - 5) ++
              " more detailed elements"
          else elementsText
        elementsText ++ ".")]
     else [])
  let parts := parts ++ ["Motion: " ++ p.motion ++ "."]
  let parts := parts ++ ["The video ends with " ++ p.ending ++ "."]
  let parts := parts ++
    (if p.keywords ≠ [] then
      ["Keywords: " ++ String.intercalate ", " p.keywords ++ "."]
     else [])
  let parts := parts ++
    (if pyLower p.text == "none" then ["No text overlays."] else [])
  String.intercalate " " parts

/-- The flattening contract as the specification states it (spec §4.2 and
claim C6): description first, then style, camera, lighting, environment
(only if non-empty), the first 5 elements with the `, and {n-5} more
detailed elements` clause exactly when there are more than 5, then motion,
ending, keywords, and a final `No text overlays.` clause exactly when the
brief's `text` equals `none` case-insensitively. -/
def flattenSpec (p : StructuredPrompt) : String :=
  String.intercalate " "
    ([p.description,
      "Visual style: " ++ p.style ++ ".",
      "Camera: " ++ p.camera ++ ".",
      "Lighting: " ++ p.lighting ++ "."]
     ++ (if p.environment = "" then [] else ["Setting: " ++ p.environment ++ "."])
     ++ ["The scene includes " ++ String.intercalate ", " (p.elements.take 5)
          ++ (if 5 < p.elements.length then
                ", and " ++ toString (p.elements.length - 5) ++
                  " more detailed elements"
              else "")
          ++ "."]
     ++ ["Motion: " ++ p.motion ++ ".",
         "The video ends with " ++ p.ending ++ ".",
         "Keywords: " ++ String.intercalate ", " p.keywords ++ "."]
     ++ (if pyLower p.text = "none" then ["No text overlays."] else []))

/-- The fixed placeholder produced by `AudioProcessor._summarize` for empty
or very short transcripts (`services/audio_processor.py` line 341). -/
def placeholderSummary : String :=
  "Audio content was too brief or unclear to summarize."

/-- `AudioProcessor._summarize` (`services/audio_processor.py` lines
334-392).  `model` is the GPT summarization call as an oracle from the
transcript to its outcome; the returned `Bool` records whether that call
was issued.  Python's `not transcript` on a string is `= ""`, and
`transcript.strip()` is `pyStrip`. -/
def summarize (transcript : String) (model : String → Except String String) :
    Except String String × Bool :=
  if transcript = "" ∨ (pyStrip transcript).length < 5 then
    (Except.ok placeholderSummary, false)
  else
    (model transcript, true)

/-! ## Veo client (`configs/veo_client.py`) -/

/-- One entry of the `videos` list of a poll response.  `gcsUri` /
`bytesBase64Encoded` being `some` models the key being present in the dict
(the code tests key presence with `in`, not truthiness). -/
structure VideoEntry where
  gcsUri : Option String
  bytesBase64Encoded : Option String
  mimeType : Option String
deriving DecidableEq, Repr

/-- A poll response as used by `VeoClient.wait_for_video`: the `done` flag,
the optional `error` field, and `response.videos`
(`status.get("response", {}).get("videos", [])`). -/
structure OpStatus where
  done : Bool
  error : Option String
  videos : List VideoEntry
deriving DecidableEq, Repr

/-- Outcome of one `get_operation_status` call: either the call raises
(`fail`, e.g. a transport error) or returns a response. -/
inductive PollOutcome where
  | fail (msg : String)
  | ok (s : OpStatus)
deriving DecidableEq, Repr

/-- Whether a poll outcome reports `done=true` (a raised poll reports
nothing). -/
def PollOutcome.reportsDone : PollOutcome → Bool
  | .fail _ => false
  | .ok s => s.done

/-- Value returned by `wait_for_video`.  `completedUri`/`completedB64` are
the two `status: completed` dicts; `rawResponse` is the bare
`response_data` returned when `done` holds with an empty `videos` list (it
has no `status` key); `timeout` and `errorRes` are the dicts built in the
timeout and outer-exception paths, both carrying
`operation_id = operation_name`. -/
inductive WaitResult where
  | completedUri (uri mime : String)
  | completedB64 (b64 mime : String)
  | rawResponse (videos : List VideoEntry)
  | timeout (opId : String)
  | errorRes (opId msg : String)
deriving DecidableEq, Repr

/-- One iteration body of the `while` loop of `VeoClient.wait_for_video`
(`configs/veo_client.py` lines 211-253): `some r` means the iteration
executed `return r`; `none` means the loop continues (sleep, next poll).
The `raise` on `done=true` with an `error` field sits inside the same
`try` whose `except Exception: ... pass` handler absorbs poll failures, so
that path also continues the loop.  A `done` response whose first video
carries neither `gcsUri` nor `bytesBase64Encoded` falls through both
`return` branches and likewise continues. -/
def pollStep (p : PollOutcome) : Option WaitResult :=
  match p with
  | .fail _ => none
  | .ok s =>
    if s.done then
      match s.error with
      | some _ => none
      | none =>
        match s.videos with
        | [] => some (.rawResponse s.videos)
        | v :: _ =>
          match v.gcsUri with
          | some u => some (.completedUri u (v.mimeType.getD "video/mp4"))
          | none =>
            match v.bytesBase64Encoded with
            | some b => some (.completedB64 b (v.mimeType.getD "video/mp4"))
            | none => none
    else none

/-- The polling loop, with polls counted.  `k` is the index of the next
poll (= polls issued so far); `fuel` is the number of loop iterations the
wall-clock guard still admits.  Exhausted fuel is the timeout return. -/
def waitRun (polls : Nat → PollOutcome) (opName : String) :
    Nat → Nat → WaitResult × Nat
  | 0, k => (.timeout opName, k)
  | fuel + 1, k =>
    match pollStep (polls k) with
    | some r => (r, k + 1)
    | none => waitRun polls opName fuel (k + 1)

/-- Number of iterations the guard `elapsed < timeout_seconds` admits when
each iteration's elapsed time is `k * poll_interval` (polls are
instantaneous, the sleep dominates): the least `k` with
`k * interval ≥ timeout`, i.e. `⌈timeout / interval⌉`. -/
def numIters (timeoutS interval : Nat) : Nat :=
  (timeoutS + interval - 1) / interval

/-- `VeoClient.wait_for_video` (`configs/veo_client.py` lines 189-272) over
an oracle poll stream, idealizing each iteration's duration as exactly the
`poll_interval` sleep.  Returns the result together with the number of
polls issued.  The function is total: the outer `try/except` of the source
converts any escaping exception into an `errorRes` return, so no outcome
raises to the caller (in this model no statement outside the inner `try`
can raise, so `errorRes` is never produced). -/
def wait_for_video (polls : Nat → PollOutcome) (opName : String)
    (timeoutS interval : Nat) : WaitResult × Nat :=
  waitRun polls opName (numIters timeoutS interval) 0

/-! ## Status store (`services/db/neon.py`) -/

/-- `additional_info` payload of a status update, as an insertion-ordered
key/value dict. -/
abbrev Info := List (String × String)

/-- A row of the `update_status` table:
`{session_id, status, sequence_number, additional_info?}` (the `timestamp`
column is not modelled). -/
structure StatusRow where
  session_id : String
  status : String
  sequence_number : Nat
  info : Option Info
deriving DecidableEq, Repr

/-- State of the store: the `update_counters` table (one row per session,
`session_id` being its conflict key, so it is a map from session id to
count) and the `update_status` rows in insertion order. -/
structure DbState where
  counters : String → Option Nat
  rows : List StatusRow

/-- The empty store. -/
def DbState.empty : DbState := ⟨fun _ => none, []⟩

/-- `NeonDatabase.update_status` (`services/db/neon.py` lines 65-105):
read the session's counter row (`count = 1` if absent, else the stored
count plus 1), upsert it (`on_conflict="session_id"`), and insert a
status row carrying `count` as `sequence_number`. -/
def update_status (db : DbState) (sid status : String) (info : Option Info) :
    DbState :=
  let count :=
    match db.counters sid with
    | none => 1
    | some c => c + 1
  { counters := fun s => if s = sid then some count else db.counters s,
    rows := db.rows ++ [⟨sid, status, count, info⟩] }

/-- `NeonDatabase.get_status_updates` (`services/db/neon.py` lines
166-175): select the session's rows and order by `sequence_number`. -/
def get_status_updates (db : DbState) (sid : String) : List StatusRow :=
  (db.rows.filter (fun r => r.session_id = sid)).insertionSort
    (fun a b => a.sequence_number ≤ b.sequence_number)

/-- Replay a sequence of `update_status` calls against the empty store. -/
def replayUpdates (ops : List (String × String × Option Info)) : DbState :=
  ops.foldl (fun db o => update_status db o.1 o.2.1 o.2.2) DbState.empty

/-! ## Pipeline orchestrator (`services/audio_processor.py`) -/

/-- The object returned by the image-generation API call
(`image_response.data[0]`): `url = some u` models the `url` attribute being
present (the code then downloads it; `downloadB64` is the base64 encoding
of the downloaded bytes), `b64Json` is `getattr(image_data, 'b64_json', '')`,
and `revisedPrompt = none` models the `revised_prompt` attribute being
absent. -/
structure ImageData where
  url : Option String
  downloadB64 : String
  b64Json : String
  revisedPrompt : Option String
deriving DecidableEq, Repr

/-- Oracles for `_generate_image_from_prompt`: the `images.generate` call,
whether the Cloudinary service is configured (`cloudinary_service` truthy),
and the upload attempt's outcome. -/
structure ImageEnv where
  imagesGenerate : Except String ImageData
  cloudEnabled : Bool
  cloudUpload : Except String String
deriving Repr

/-- Local image path chosen by `_generate_image_from_prompt`
(`services/audio_processor.py` lines 469/477): keyed by the session id when
it is truthy. -/
def localImagePath (sid : String) : String :=
  if sid ≠ "" then "generated_images/" ++ sid ++ ".png"
  else "generated_images/test_image.png"

/-- Local video path chosen by `_generate_video`
(`services/audio_processor.py` lines 692/700). -/
def localVideoPath (sid : String) : String :=
  "generated_videos/" ++ sid ++ ".mp4"

/-- The image-bytes extraction block of `_generate_image_from_prompt`
(`services/audio_processor.py` lines 425-443): prefer a present, truthy
`url` (download and encode), else a non-empty `b64_json`, else raise
`ValueError("No image data received from API")`. -/
def image_b64_extract (d : ImageData) : Except String String :=
  let urlPresent : Bool :=
    match d.url with
    | some u => u != ""
    | none => false
  if urlPresent then Except.ok d.downloadB64
  else if d.b64Json ≠ "" then Except.ok d.b64Json
  else Except.error "No image data received from API"

/-- `AudioProcessor._generate_image_from_prompt`
(`services/audio_processor.py` lines 407-487).  Returns
`(image_url, revised_prompt, image_base64)`.  A Cloudinary upload failure
is caught and falls back to the local path; everything else re-raises. -/
def generate_image_from_prompt (env : ImageEnv) (prompt _summary sid : String) :
    Except String (String × String × String) :=
  match env.imagesGenerate with
  | .error e => .error e
  | .ok d =>
    match image_b64_extract d with
    | .error e => .error e
    | .ok b64 =>
      let revised := d.revisedPrompt.getD prompt
      let url :=
        if env.cloudEnabled then
          match env.cloudUpload with
          | .ok u => u
          | .error _ => localImagePath sid
        else localImagePath sid
      .ok (url, revised, b64)

/-- The submission response of `VeoClient.generate_video`: only its
`name` key is consumed (`operation['name']` / `operation.get('name')`);
`none` models the key being absent. -/
structure Operation where
  name : Option String
deriving DecidableEq, Repr

/-- Oracles for `_generate_video`: whether `GCP_PROJECT_ID` is configured,
the structured-brief model call (`generate_video_prompt`), the submission
call (`veo_client.generate_video`), the poll stream for
`wait_for_video`, and the Cloudinary tier for the base64 storage path. -/
structure VideoEnv where
  gcpConfigured : Bool
  promptGen : Except String StructuredPrompt
  submit : Except String Operation
  polls : Nat → PollOutcome
  cloudEnabled : Bool
  cloudUpload : Except String String

/-- `AudioProcessor._generate_video` (`services/audio_processor.py` lines
591-725).  Its catch-all `except` turns every escaping exception into the
return `(None, None)`, so the function is total with result
`Option String × Option StructuredPrompt`.  The `wait_for_video` call uses
the hard-coded `timeout_seconds=90, poll_interval=10`.  Branches on the
wait result follow lines 652-716: a `completed` result with a truthy
`videoUri` records the GCS uri and uses the local path; a `completed`
base64 result goes through the Cloudinary-or-local storage tier; the
`submitted`/`timeout`/`error` statuses and the no-`status` raw response
yield the `pending:<operation-id>` marker. -/
def generate_video (env : VideoEnv) (_summary _image_prompt _transcript sid : String) :
    Option String × Option StructuredPrompt :=
  if !env.gcpConfigured then (none, none)
  else
    match env.promptGen with
    | .error _ => (none, none)
    | .ok vp =>
      let _veoPromptText := format_for_veo vp
      match env.submit with
      | .error _ => (none, none)
      | .ok op =>
        match op.name with
        | none => (none, none)
        | some opName =>
          match (wait_for_video env.polls opName 90 10).1 with
          | .completedUri u _ =>
            if u ≠ "" then (some (localVideoPath sid), some vp)
            else (none, some vp)
          | .completedB64 _ _ =>
            let url :=
              if env.cloudEnabled then
                match env.cloudUpload with
                | .ok u => u
                | .error _ => localVideoPath sid
              else localVideoPath sid
            (some url, some vp)
          | .timeout opId => (some ("pending:" ++ opId), some vp)
          | .errorRes opId _ => (some ("pending:" ++ opId), some vp)
          | .rawResponse _ => (some ("pending:" ++ opName), some vp)

/-- The `visual_prompt` argument of `_generate_title`: either the image
prompt string or the structured video brief (the code passes
`video_prompt or image_prompt`, so a brief dict can flow into the title
input). -/
inductive VisualPrompt where
  | str (s : String)
  | brief (b : StructuredPrompt)
deriving DecidableEq, Repr

/-- Input with which the title capability is invoked: the vision branch
(`chat.completions` with the image) or the text branch (`responses.create`
whose input the code renders as
`f"Summary: {summary}\n\nVisual concept: {visual_prompt}"` when a visual
prompt is available, else the bare summary). -/
inductive TitleIn where
  | vision (imageB64 summary : String)
  | text (summary : String) (visual : Option VisualPrompt)
deriving DecidableEq, Repr

/-- Python truthiness of the `visual_prompt` value: `None` and the empty
string are falsy; a brief dict (always non-empty) is truthy. -/
def vpTruthy : Option VisualPrompt → Option VisualPrompt
  | some (.str s) => if s = "" then none else some (.str s)
  | x => x

/-- `AudioProcessor._generate_title` (`services/audio_processor.py` lines
489-571): `if image_base64:` selects the vision call, else the text call
with the truthy visual prompt folded into the input. -/
def generate_title (title : TitleIn → Except String String)
    (image_base64 : Option String) (summary : String)
    (visual : Option VisualPrompt) : Except String String :=
  match image_base64 with
  | some b64 =>
    if b64 ≠ "" then title (.vision b64 summary)
    else title (.text summary (vpTruthy visual))
  | none => title (.text summary (vpTruthy visual))

/-- Local variables of `_process_task` after the media stage
(`image_url`, `image_prompt`, `image_base64`, `video_url`,
`video_prompt`), all initialized to `None` at lines 152-156. -/
structure MediaOut where
  image_url : Option String := none
  image_prompt : Option String := none
  image_base64 : Option String := none
  video_url : Option String := none
  video_prompt : Option StructuredPrompt := none
deriving DecidableEq, Repr

/-- One status write of the orchestrator
(`db.update_status(session_id, status, additional_info?)`). -/
structure StatusUpdate where
  status : String
  info : Option Info := none
deriving DecidableEq, Repr

/-- The final record handed to `db.notify_user` (lines 252-266).  A `none`
field models the key being omitted from the dict (the code only adds media
keys behind `if image_url:` / `if video_url:`). -/
structure ResultData where
  transcript : String
  summary : String
  title : String
  generation_mode : String
  status : String
  image_url : Option String := none
  image_prompt : Option String := none
  video_url : Option String := none
  video_prompt : Option StructuredPrompt := none
deriving DecidableEq, Repr

/-- All oracles a single job consumes: the Whisper call, the GPT
summarization call (a function of the transcript), the image-prompt call
(a function of the summary), the image sub-pipeline, the video
sub-pipeline, and the title capability (a function of its input). -/
structure PipelineEnv where
  transcribe : Except String String
  summarizeModel : String → Except String String
  imagePromptGen : String → Except String String
  imageEnv : ImageEnv
  videoEnv : VideoEnv
  title : TitleIn → Except String String

/-- Python truthiness of an optional string (`if image_url:`). -/
def truthyOpt : Option String → Bool
  | some s => s ≠ ""
  | none => false

/-- The media-generation stage of `_process_task`
(`services/audio_processor.py` lines 148-230), returning the status
updates it writes and either the media variables or the propagating
exception.  In `"both"` mode the two branches are gathered with
`return_exceptions=True`: an image-branch exception is captured and
recorded in the status payload while the video branch (total by its own
catch-all) still assigns its results; in `"video"` mode the
`_generate_image_prompt` call happens before `_generate_video` and is not
covered by any local handler. -/
def mediaStage (env : PipelineEnv) (sid mode transcript summary : String) :
    List StatusUpdate × Except String MediaOut :=
  if mode = "both" then
    let sts : List StatusUpdate :=
      [⟨"generating_media", some [("image", "in_progress"), ("video", "in_progress")]⟩]
    match env.imagePromptGen summary with
    | .error e => (sts, .error e)
    | .ok image_prompt =>
      let vidRes := generate_video env.videoEnv summary image_prompt transcript sid
      match generate_image_from_prompt env.imageEnv image_prompt summary sid with
      | .error ie =>
        let sts := sts ++
          [⟨"generating_media",
            some [("image", "failed"), ("video", "in_progress"), ("image_error", ie)]⟩]
        (sts, .ok { image_prompt := some image_prompt,
                    video_url := vidRes.1, video_prompt := vidRes.2 })
      | .ok (iurl, _irp, ib64) =>
        let sts := sts ++
          [⟨"generating_media", some [("image", "completed"), ("video", "in_progress")]⟩]
        (sts, .ok { image_url := some iurl, image_prompt := some image_prompt,
                    image_base64 := some ib64,
                    video_url := vidRes.1, video_prompt := vidRes.2 })
  else if mode = "image" ∨ mode = "both" then
    let sts : List StatusUpdate := [⟨"generating_image", none⟩]
    match env.imagePromptGen summary with
    | .error e => (sts, .error e)
    | .ok prompt =>
      match generate_image_from_prompt env.imageEnv prompt summary sid with
      | .error e => (sts, .error e)
      | .ok (url, revised, b64) =>
        (sts, .ok { image_url := some url, image_prompt := some revised,
                    image_base64 := some b64 })
  else if mode = "video" ∨ mode = "both" then
    let sts : List StatusUpdate := [⟨"generating_video", none⟩]
    match env.imagePromptGen summary with
    | .error e => (sts, .error e)
    | .ok image_prompt =>
      let v := generate_video env.videoEnv summary image_prompt transcript sid
      (sts, .ok { image_prompt := some image_prompt,
                  video_url := v.1, video_prompt := v.2 })
  else ([], .ok {})

/-- The body of the top-level `try` of `AudioProcessor._process_task`
(`services/audio_processor.py` lines 124-279): status writes in order and
either the persisted result or `(current_stage, error message)` of the
raising stage. -/
def process_core (env : PipelineEnv) (sid mode : String) :
    List StatusUpdate × Except (String × String) ResultData :=
  let sts : List StatusUpdate := [⟨"transcribing", none⟩]
  match env.transcribe with
  | .error e => (sts, .error ("transcription", e))
  | .ok transcript =>
    let sts := sts ++ [⟨"summarizing", none⟩]
    match (summarize transcript env.summarizeModel).1 with
    | .error e => (sts, .error ("summarization", e))
    | .ok summary =>
      match mediaStage env sid mode transcript summary with
      | (msts, .error e) => (sts ++ msts, .error ("media_generation", e))
      | (msts, .ok m) =>
        let sts := sts ++ msts ++ [⟨"generating_title", none⟩]
        let visual : Option VisualPrompt :=
          match m.video_prompt with
          | some b => some (.brief b)
          | none => m.image_prompt.map .str
        match generate_title env.title m.image_base64 summary visual with
        | .error e => (sts, .error ("title_generation", e))
        | .ok titleText =>
          let sts := sts ++ [⟨"storing", none⟩]
          let r : ResultData :=
            { transcript := transcript, summary := summary, title := titleText,
              generation_mode := mode, status := "completed",
              image_url := if truthyOpt m.image_url then m.image_url else none,
              image_prompt := if truthyOpt m.image_url then m.image_prompt else none,
              video_url := if truthyOpt m.video_url then m.video_url else none,
              video_prompt := if truthyOpt m.video_url then m.video_prompt else none }
          (sts ++ [⟨"completed", none⟩], .ok r)

/-- Observable outcome of `_process_task`: the status updates written, the
record passed to `notify_user` (if reached), and the exception re-raised
to the worker (if any). -/
structure ProcOutcome where
  statuses : List StatusUpdate
  result : Option ResultData
  raised : Option String
deriving Repr

/-- `AudioProcessor._process_task` including its top-level `except`
(lines 281-299), which appends a `failed` status carrying the error
message and the failing stage, then re-raises. -/
def process_task (env : PipelineEnv) (sid mode : String) : ProcOutcome :=
  match process_core env sid mode with
  | (sts, .ok r) => ⟨sts, some r, none⟩
  | (sts, .error (stage, e)) =>
    ⟨sts ++ [⟨"failed", some [("error", e), ("stage", stage)]⟩], none, some e⟩

/-- One iteration of `AudioProcessor._worker` (lines 85-105) on a dequeued
task: run `_process_task`; if it raises, write a second `failed` status
carrying only the error message.  Returns every status update written for
the session during the iteration. -/
def worker_step (env : PipelineEnv) (sid mode : String) : List StatusUpdate :=
  let o := process_task env sid mode
  match o.raised with
  | some e => o.statuses ++ [⟨"failed", some [("error", e)]⟩]
  | none => o.statuses



/-- Poll stream for the witness of `await_completion_timeout`: every poll
returns an in-progress response. -/
def pollsInProgress : Nat → PollOutcome :=
  fun _ => .ok { done := false, error := none, videos := [] }

/-- The sequence numbers of a session's rows in insertion order. -/
def sessionSeqs (db : DbState) (sid : String) : List Nat :=
  (db.rows.filter (fun r => r.session_id = sid)).map
    (fun r => r.sequence_number)

/-- Invariant of the status store: for every session, the sequence numbers
in insertion order are exactly `1, 2, …, count`. -/
def SeqInv (db : DbState) : Prop :=
  ∀ sid, sessionSeqs db sid = List.range' 1 ((db.counters sid).getD 0)

/-- Poll stream every poll of which reports `done=true` together with an
`error` field — the situation claim C3 says is the one fatal outcome of
the polling loop. -/
def pollsDoneError : Nat → PollOutcome :=
  fun _ => .ok { done := true, error := some "video quota exceeded", videos := [] }

/-- Environment of the witness for `worker_writes_two_failed`: the
transcription call raises. -/
def envTranscribeDown : PipelineEnv where
  transcribe := Except.error "whisper down"
  summarizeModel := fun _ => Except.ok "A summary."
  imagePromptGen := fun _ => Except.ok "an image prompt"
  imageEnv :=
    { imagesGenerate := Except.ok ⟨none, "", "QUJD", none⟩,
      cloudEnabled := false, cloudUpload := Except.error "unused" }
  videoEnv :=
    { gcpConfigured := false, promptGen := Except.error "unused",
      submit := Except.error "unused", polls := fun _ => .fail "unused",
      cloudEnabled := false, cloudUpload := Except.error "unused" }
  title := fun _ => Except.ok "A Title"

/-- Environment of the witness for `both_mode_video_fail_image_ok`: the
image branch succeeds via local storage, the video branch fails at its
configuration check. -/
def envC1W : PipelineEnv where
  transcribe := Except.ok "hello there everyone"
  summarizeModel := fun _ => Except.ok "A summary of the audio."
  imagePromptGen := fun _ => Except.ok "a vivid painting"
  imageEnv :=
    { imagesGenerate := Except.ok ⟨none, "", "QUJD", some "revised prompt"⟩,
      cloudEnabled := false, cloudUpload := Except.error "unused" }
  videoEnv :=
    { gcpConfigured := false, promptGen := Except.error "unused",
      submit := Except.error "unused", polls := fun _ => .fail "unused",
      cloudEnabled := false, cloudUpload := Except.error "unused" }
  title := fun _ => Except.ok "Nice Title"

/-- Environment showing that in `"video"` mode a failing image-prompt
generation call aborts the job: everything before the media stage
succeeds, `_generate_image_prompt` raises. -/
def envPromptDown : PipelineEnv where
  transcribe := Except.ok "hello there world"
  summarizeModel := fun _ => Except.ok "A summary."
  imagePromptGen := fun _ => Except.error "prompt model unavailable"
  imageEnv :=
    { imagesGenerate := Except.error "unused",
      cloudEnabled := false, cloudUpload := Except.error "unused" }
  videoEnv :=
    { gcpConfigured := true, promptGen := Except.error "unused",
      submit := Except.error "unused", polls := fun _ => .fail "unused",
      cloudEnabled := false, cloudUpload := Except.error "unused" }
  title := fun _ => Except.ok "A Title"

/-- Environment of the witness for
`video_mode_generation_failure_not_fatal`: the structured-brief model call
inside `_generate_video` raises. -/
def envBriefDown : PipelineEnv where
  transcribe := Except.ok "hello there world"
  summarizeModel := fun _ => Except.ok "Sum text."
  imagePromptGen := fun _ => Except.ok "a neon cityscape"
  imageEnv :=
    { imagesGenerate := Except.error "unused",
      cloudEnabled := false, cloudUpload := Except.error "unused" }
  videoEnv :=
    { gcpConfigured := true, promptGen := Except.error "veo brief failed",
      submit := Except.error "unused", polls := fun _ => .fail "unused",
      cloudEnabled := false, cloudUpload := Except.error "unused" }
  title := fun _ => Except.ok "City Title"

/-- Structured brief of the witness for `video_pending_marker`. -/
def briefW : StructuredPrompt where
  description := "A glowing forest at night"
  style := "cinematic"
  camera := "dolly in"
  lighting := "bioluminescent glow"
  environment := "dense forest"
  elements := ["f1", "f2", "f3", "f4", "f5", "f6", "f7", "f8"]
  motion := "slow drift"
  ending := "a single lit tree"
  text := "none"
  keywords := ["w1", "w2", "w3", "w4", "w5"]

/-- Environment of the witness for `video_pending_marker`: submission
succeeds but every poll is still in progress, so the wait times out; the
image branch (used by the `"both"` conjuncts) succeeds via local
storage. -/
def envPendingW : PipelineEnv where
  transcribe := Except.ok "hello there world"
  summarizeModel := fun _ => Except.ok "Sum text."
  imagePromptGen := fun _ => Except.ok "a glowing forest"
  imageEnv :=
    { imagesGenerate := Except.ok ⟨none, "", "QUJD", some "revised forest"⟩,
      cloudEnabled := false, cloudUpload := Except.error "unused" }
  videoEnv :=
    { gcpConfigured := true, promptGen := Except.ok briefW,
      submit := Except.ok ⟨some "op-123"⟩,
      polls := fun _ => .ok { done := false, error := none, videos := [] },
      cloudEnabled := false, cloudUpload := Except.error "unused" }
  title := fun i =>
    match i with
    | .vision _ _ => Except.ok "Vision Forest Title"
    | .text _ _ => Except.ok "Forest Title"

/-- Image environment of the witness for
`storage_remote_failure_falls_back_local`. -/
def ienvFallbackW : ImageEnv where
  imagesGenerate := Except.ok ⟨none, "", "QUJD", none⟩
  cloudEnabled := true
  cloudUpload := Except.error "cloudinary 500"

/-- Video environment of the witness for
`storage_remote_failure_falls_back_local`: the first poll returns a done
response with inline base64 video bytes. -/
def venvFallbackW : VideoEnv where
  gcpConfigured := true
  promptGen := Except.ok briefW
  submit := Except.ok ⟨some "op-77"⟩
  polls := fun _ =>
    .ok { done := true, error := none,
          videos := [⟨none, some "AAAA", none⟩] }
  cloudEnabled := true
  cloudUpload := Except.error "cloudinary video 500"

/-! ## Theorems -/

/-- C5: a transcript that is empty or whose trimmed length is shorter than
5 characters makes `_summarize` return the fixed placeholder summary
without issuing the summarization model call (the `Bool` component is
`false` and the outcome does not depend on the model oracle), and the
outcome is a success, so the job does not fail because of the short
transcript. -/
theorem summarize_short_transcript (t : String)
    (model : String → Except String String)
    (h : t = "" ∨ (pyStrip t).length < 5) :
    summarize t model = (Except.ok placeholderSummary, false) := by
  unfold summarize
  rw [if_pos h]

/-- Witness for `summarize_short_transcript` at the transcript `" hi "`,
with a model oracle that would fail if it were called. -/
theorem summarize_short_transcript_witness :
    (pyStrip " hi ").length < 5 ∧
      summarize " hi " (fun _ => Except.error "model must not be called") =
        (Except.ok placeholderSummary, false) :=
  ⟨by decide,
   summarize_short_transcript " hi " (fun _ => Except.error "model must not be called")
     (Or.inr (by decide))⟩

/-- C6: `format_for_veo` produces exactly the clause sequence the
specification fixes — description; style; camera; lighting; environment
only if non-empty; the first 5 elements with the
`, and {n-5} more detailed elements` clause exactly when there are more
than 5 elements (omitted at exactly 5); motion; ending; keywords; and the
final `No text overlays.` clause exactly when `text` is `none`
case-insensitively — stated as agreement with `flattenSpec`, the
flattening written from the specification's words, for every brief whose
`elements` and `keywords` are non-empty (the schema guarantees 8-12
elements and 5-10 keywords). -/
theorem format_for_veo_matches_spec (p : StructuredPrompt)
    (he : p.elements ≠ []) (hk : p.keywords ≠ []) :
    format_for_veo p = flattenSpec p := by
  unfold format_for_veo flattenSpec
  rw [if_pos he, if_pos hk]
  by_cases henv : p.environment = "" <;>
    by_cases hlen : p.elements.length > 5 <;>
      by_cases htxt : pyLower p.text = "none" <;>
        simp [henv, hlen, htxt, String.append_assoc, String.append_empty,
          not_lt.mpr, henv]

/-- Witness for `format_for_veo_matches_spec` at a concrete brief with 8
elements and 5 keywords. -/
theorem format_for_veo_matches_spec_witness :
    format_for_veo
        { description := "A calm lake at dawn", style := "cinematic",
          camera := "slow pan", lighting := "golden hour",
          environment := "misty lake",
          elements := ["e1", "e2", "e3", "e4", "e5", "e6", "e7", "e8"],
          motion := "gentle", ending := "a wide shot", text := "None",
          keywords := ["k1", "k2", "k3", "k4", "k5"] } =
      flattenSpec
        { description := "A calm lake at dawn", style := "cinematic",
          camera := "slow pan", lighting := "golden hour",
          environment := "misty lake",
          elements := ["e1", "e2", "e3", "e4", "e5", "e6", "e7", "e8"],
          motion := "gentle", ending := "a wide shot", text := "None",
          keywords := ["k1", "k2", "k3", "k4", "k5"] } :=
  format_for_veo_matches_spec _ (by decide) (by decide)

/-- A loop iteration whose poll does not report `done=true` (whether the
poll raised or returned an in-progress response) never returns. -/
theorem pollStep_of_not_done (p : PollOutcome) (h : p.reportsDone = false) :
    pollStep p = none := by
  cases p with
  | fail m => rfl
  | ok s =>
    simp only [PollOutcome.reportsDone] at h
    simp [pollStep, h]

/-- If every admitted iteration continues, the loop exhausts its fuel and
returns the timeout result, having issued exactly `fuel` polls. -/
theorem waitRun_timeout (polls : Nat → PollOutcome) (opName : String) :
    ∀ (fuel start : Nat),
      (∀ j, start ≤ j → j < start + fuel → pollStep (polls j) = none) →
      waitRun polls opName fuel start = (.timeout opName, start + fuel) := by
  intro fuel
  induction fuel with
  | zero => intro start _; simp [waitRun]
  | succ n ih =>
    intro start h
    have h0 : pollStep (polls start) = none := h start le_rfl (by omega)
    have hrest := ih (start + 1) (fun j hj1 hj2 => h j (by omega) (by omega))
    simp only [waitRun, h0]
    rw [hrest]
    congr 1
    omega

/-- C4: when no poll reports `done=true` within the admitted iterations,
`wait_for_video` returns the `{status: timeout}` result (it never raises:
the model is a total function for every poll stream, mirroring the outer
`try/except` that converts any escaping exception into a returned value),
and the number of polls issued is `numIters = ⌈timeout / interval⌉`, which
lies between `⌊timeout / interval⌋` and `⌊timeout / interval⌋ + 1`.  Each
iteration's elapsed time is idealized as exactly one `poll_interval`
sleep, which is what makes the count exact rather than `± 1`. -/
theorem await_completion_timeout (polls : Nat → PollOutcome) (opName : String)
    (timeoutS interval : Nat) (hi : 0 < interval)
    (hnd : ∀ k, k < numIters timeoutS interval → (polls k).reportsDone = false) :
    wait_for_video polls opName timeoutS interval =
      (WaitResult.timeout opName, numIters timeoutS interval) ∧
    timeoutS / interval ≤ numIters timeoutS interval ∧
    numIters timeoutS interval ≤ timeoutS / interval + 1 := by
  refine ⟨?_, ?_, ?_⟩
  · unfold wait_for_video
    have := waitRun_timeout polls opName (numIters timeoutS interval) 0
      (fun j _ hj2 => pollStep_of_not_done _ (hnd j (by omega)))
    simpa using this
  · exact Nat.div_le_div_right (by omega)
  · calc numIters timeoutS interval
        ≤ (timeoutS + interval) / interval := Nat.div_le_div_right (by omega)
      _ = timeoutS / interval + 1 := Nat.add_div_right _ hi

/-- Witness for `await_completion_timeout` with `timeout_seconds = 17`,
`poll_interval = 5`: 4 polls are issued, between `⌊17/5⌋ = 3` and `4`. -/
theorem await_completion_timeout_witness :
    wait_for_video pollsInProgress "op-w" 17 5 =
      (WaitResult.timeout "op-w", numIters 17 5) ∧
    17 / 5 ≤ numIters 17 5 ∧ numIters 17 5 ≤ 17 / 5 + 1 :=
  await_completion_timeout pollsInProgress "op-w" 17 5 (by decide) (by decide)

/-- The empty store satisfies the sequence invariant. -/
theorem seqInv_empty : SeqInv DbState.empty := by
  intro sid
  simp [sessionSeqs, DbState.empty]

/-- `update_status` preserves the sequence invariant: the touched session
gains exactly the next sequence number, other sessions are untouched. -/
theorem seqInv_update (db : DbState) (h : SeqInv db) (sid status : String)
    (info : Option Info) : SeqInv (update_status db sid status info) := by
  intro s
  have hc : (match db.counters sid with | none => 1 | some c => c + 1) =
      (db.counters sid).getD 0 + 1 := by
    cases db.counters sid <;> simp
  by_cases hs : s = sid
  · subst hs
    have hbase := h s
    simp only [sessionSeqs] at hbase ⊢
    simp [update_status, List.filter_append, hc, hbase]
    have hcat := @List.range'_concat 1 1 ((db.counters s).getD 0)
    simp only [one_mul] at hcat
    rw [hcat]
    simp [Nat.add_comm]
  · have hneq : ¬ (sid = s) := fun hss => hs hss.symm
    have hbase := h s
    simp only [sessionSeqs] at hbase ⊢
    simp [update_status, List.filter_append, hs, hneq, hbase]

/-- The sequence invariant holds after replaying any sequence of
`update_status` calls from the empty store. -/
theorem seqInv_replay (ops : List (String × String × Option Info)) :
    SeqInv (replayUpdates ops) := by
  have main : ∀ (l : List (String × String × Option Info)) (db : DbState),
      SeqInv db →
      SeqInv (l.foldl (fun d o => update_status d o.1 o.2.1 o.2.2) db) := by
    intro l
    induction l with
    | nil => intro db hdb; exact hdb
    | cons o rest ih =>
      intro db hdb
      exact ih _ (seqInv_update db hdb o.1 o.2.1 o.2.2)
  exact main ops DbState.empty seqInv_empty

/-- C8: for every session, the sequence numbers observed through
`get_status_updates` (which orders by `sequence_number`) after any
sequence of `update_status` calls against the empty store are exactly
`1, 2, …, n` — strictly increasing, no gaps, each write carrying the
previous counter plus one starting at 1. -/
theorem status_sequence_numbers_no_gaps
    (ops : List (String × String × Option Info)) (sid : String) :
    (get_status_updates (replayUpdates ops) sid).map
        (fun r => r.sequence_number) =
      List.range' 1 ((get_status_updates (replayUpdates ops) sid).length) := by
  have hinv := seqInv_replay ops sid
  set db := replayUpdates ops with hdb
  have hsorted : (db.rows.filter (fun r => r.session_id = sid)).Sorted
      (fun a b => a.sequence_number ≤ b.sequence_number) := by
    have hp : ((db.rows.filter (fun r => r.session_id = sid)).map
        (fun r => r.sequence_number)).Pairwise (· < ·) := by
      have := hinv
      simp only [sessionSeqs] at this
      rw [this]
      exact List.pairwise_lt_range' 1 _
    rw [List.pairwise_map] at hp
    exact hp.imp (fun hab => Nat.le_of_lt hab)
  have hid : get_status_updates db sid =
      db.rows.filter (fun r => r.session_id = sid) := by
    unfold get_status_updates
    exact hsorted.insertionSort_eq
  rw [hid]
  have hlen : (db.rows.filter (fun r => r.session_id = sid)).length =
      ((db.rows.filter (fun r => r.session_id = sid)).map
        (fun r => r.sequence_number)).length := by simp
  have hseqs := hinv
  simp only [sessionSeqs] at hseqs
  rw [hseqs]
  congr 1
  rw [hlen, hseqs]
  simp

/-- C3 counterexample: evaluation of `wait_for_video` on a stream whose
very first poll reports `done=true` with an `error` field, with
`timeout_seconds = 10`, `poll_interval = 5`.  The `raise` at
`configs/veo_client.py` line 218 is caught by the `except Exception` at
line 248 of the *same* `try`, so the loop does not raise, keeps polling
(2 polls are issued), and returns the non-error `{status: timeout}`
result — contradicting the claim that a `done=true` poll with an error
raises immediately (and even an escaping raise would only reach the outer
handler at line 264, which returns a `{status: error}` dict rather than
raising to the caller). -/
theorem wait_for_video_swallows_done_error :
    pollsDoneError 0 =
      PollOutcome.ok ⟨true, some "video quota exceeded", []⟩ ∧
    wait_for_video pollsDoneError "op-err" 10 5 =
      (WaitResult.timeout "op-err", 2) :=
  ⟨rfl, by decide⟩

/-- C3 amended: when a poll returns `done=true` with an `error` field, the
exception the loop raises is swallowed by the same `except` handler that
absorbs poll failures, so the wait does not raise and does not return on
that iteration — it continues polling; if every poll reports `done=true`
with an error, the wait runs the full admitted number of iterations and
returns the `{status: timeout}` result to its caller. -/
theorem wait_done_error_continues_polling
    (polls : Nat → PollOutcome) (opName : String) (timeoutS interval : Nat)
    (hde : ∀ k, k < numIters timeoutS interval →
      ∃ s e, polls k = .ok s ∧ s.done = true ∧ s.error = some e) :
    wait_for_video polls opName timeoutS interval =
      (WaitResult.timeout opName, numIters timeoutS interval) := by
  unfold wait_for_video
  have hstep : ∀ j, 0 ≤ j → j < 0 + numIters timeoutS interval →
      pollStep (polls j) = none := by
    intro j _ hj
    obtain ⟨s, e, hpj, hd, he⟩ := hde j (by omega)
    simp [pollStep, hpj, hd, he]
  simpa using waitRun_timeout polls opName (numIters timeoutS interval) 0 hstep

/-- Witness for `wait_done_error_continues_polling`: every poll of
`pollsDoneError` reports `done=true` with an error; with
`timeout_seconds = 20`, `poll_interval = 5` the wait issues
`numIters 20 5 = 4` polls and returns the timeout result. -/
theorem wait_done_error_continues_polling_witness :
    wait_for_video pollsDoneError "op-amended" 20 5 =
      (WaitResult.timeout "op-amended", numIters 20 5) :=
  wait_done_error_continues_polling pollsDoneError "op-amended" 20 5
    (fun _ _ => ⟨⟨true, some "video quota exceeded", []⟩,
      "video quota exceeded", rfl, rfl, rfl⟩)

/-- C9: when processing a job raises a fatal error, two `failed` status
updates are written for the session — `_process_task`'s top-level handler
records one carrying the error message and the failing stage and
re-raises, and the worker loop's handler records a second one carrying
only the error message. -/
theorem worker_writes_two_failed (env : PipelineEnv) (sid mode stage e : String)
    (h : (process_core env sid mode).2 = Except.error (stage, e)) :
    (process_task env sid mode).raised = some e ∧
    worker_step env sid mode =
      (process_core env sid mode).1 ++
        [⟨"failed", some [("error", e), ("stage", stage)]⟩,
         ⟨"failed", some [("error", e)]⟩] := by
  rcases hpc : process_core env sid mode with ⟨sts, res⟩
  rw [hpc] at h
  simp only at h
  subst h
  simp [worker_step, process_task, hpc]

/-- Witness for `worker_writes_two_failed`: a failed transcription yields
the stage-tagged `failed` write followed by the worker's error-only
`failed` write. -/
theorem worker_writes_two_failed_witness :
    (process_task envTranscribeDown "s9" "image").raised = some "whisper down" ∧
    worker_step envTranscribeDown "s9" "image" =
      (process_core envTranscribeDown "s9" "image").1 ++
        [⟨"failed", some [("error", "whisper down"), ("stage", "transcription")]⟩,
         ⟨"failed", some [("error", "whisper down")]⟩] :=
  worker_writes_two_failed envTranscribeDown "s9" "image" "transcription"
    "whisper down" rfl

/-- C1: in `"both"` mode, when the video branch fails (its own catch-all
yields `(None, None)`) and the image branch succeeds, the job still ends
`completed`, the persisted result carries `image_url`/`image_prompt` and
no `video_url`/`video_prompt`, and no `failed` status is ever written.
(`image_prompt` in the result is the shared prompt generated before the
fan-out: the `both` branch discards the revised prompt.) -/
theorem both_mode_video_fail_image_ok
    (env : PipelineEnv) (sid transcript summary ip url rp b64 ttl : String)
    (ht : env.transcribe = Except.ok transcript)
    (hs : (summarize transcript env.summarizeModel).1 = Except.ok summary)
    (hp : env.imagePromptGen summary = Except.ok ip)
    (hi : generate_image_from_prompt env.imageEnv ip summary sid =
      Except.ok (url, rp, b64))
    (hu : url ≠ "")
    (hb : b64 ≠ "")
    (hv : generate_video env.videoEnv summary ip transcript sid = (none, none))
    (htl : env.title (.vision b64 summary) = Except.ok ttl) :
    (process_task env sid "both").raised = none ∧
    (process_task env sid "both").result = some
      { transcript := transcript, summary := summary, title := ttl,
        generation_mode := "both", status := "completed",
        image_url := some url, image_prompt := some ip,
        video_url := none, video_prompt := none } ∧
    ((process_task env sid "both").statuses.all
      (fun u => u.status != "failed")) = true := by
  simp [process_task, process_core, mediaStage, generate_title, truthyOpt,
    ht, hs, hp, hi, hv, htl, hu, hb]

/-- Witness for `both_mode_video_fail_image_ok` at `envC1W`. -/
theorem both_mode_video_fail_image_ok_witness :
    (process_task envC1W "s1" "both").raised = none ∧
    (process_task envC1W "s1" "both").result = some
      { transcript := "hello there everyone",
        summary := "A summary of the audio.", title := "Nice Title",
        generation_mode := "both", status := "completed",
        image_url := some "generated_images/s1.png",
        image_prompt := some "a vivid painting",
        video_url := none, video_prompt := none } ∧
    ((process_task envC1W "s1" "both").statuses.all
      (fun u => u.status != "failed")) = true :=
  both_mode_video_fail_image_ok envC1W "s1" "hello there everyone"
    "A summary of the audio." "a vivid painting" "generated_images/s1.png"
    "revised prompt" "QUJD" "Nice Title" rfl rfl rfl rfl
    (by decide) (by decide) rfl rfl

/-- C2 counterexample: the claim lists image-prompt generation among the
video-stage failures that are "not job-fatal", but in `"video"` mode
`_generate_image_prompt` is called at `services/audio_processor.py` line
227, *outside* `_generate_video`'s catch-all; its failure propagates to
the top-level handler, the job is marked `failed` at stage
`media_generation` and the error re-raises — no `completed` result is
persisted. -/
theorem video_mode_prompt_failure_is_fatal :
    (process_task envPromptDown "s2" "video").raised =
      some "prompt model unavailable" ∧
    (process_task envPromptDown "s2" "video").result = none ∧
    (process_task envPromptDown "s2" "video").statuses =
      [⟨"transcribing", none⟩, ⟨"summarizing", none⟩,
       ⟨"generating_video", none⟩,
       ⟨"failed", some [("error", "prompt model unavailable"),
                        ("stage", "media_generation")]⟩] := by
  decide

/-- C2 amended: in `"video"` mode a failure of the video generation step
that reaches `_generate_video`'s catch-all — missing GCP configuration,
structured-brief building, or submission — is not job-fatal: it is caught
and yields `(video_url=None, video_prompt=None)`, and the pipeline
continues to title and persist, producing a `completed` result with no
media fields and a title obtained from the text capability on the summary
plus the image prompt (not vision-based).  Polling supplies no such
failure: `wait_for_video` is total, and a timed-out or failed wait makes
`_generate_video` return a `pending:` marker rather than `None`; a
remote-storage failure falls back to a local URL rather than failing the
step.  The image-prompt generation step itself runs before
`_generate_video` and is excluded: its failure is job-fatal. -/
theorem video_mode_generation_failure_not_fatal
    (env : PipelineEnv) (sid transcript summary ip ttl m : String)
    (ht : env.transcribe = Except.ok transcript)
    (hs : (summarize transcript env.summarizeModel).1 = Except.ok summary)
    (hp : env.imagePromptGen summary = Except.ok ip)
    (hip : ip ≠ "")
    (hfail : env.videoEnv.gcpConfigured = false ∨
      env.videoEnv.promptGen = Except.error m ∨
      env.videoEnv.submit = Except.error m)
    (htl : env.title (.text summary (some (.str ip))) = Except.ok ttl) :
    generate_video env.videoEnv summary ip transcript sid = (none, none) ∧
    (process_task env sid "video").raised = none ∧
    (process_task env sid "video").result = some
      { transcript := transcript, summary := summary, title := ttl,
        generation_mode := "video", status := "completed",
        image_url := none, image_prompt := none,
        video_url := none, video_prompt := none } := by
  have hgv : generate_video env.videoEnv summary ip transcript sid =
      (none, none) := by
    rcases hfail with h | h | h
    · simp [generate_video, h]
    · cases hg : env.videoEnv.gcpConfigured <;> simp [generate_video, h, hg]
    · cases hg : env.videoEnv.gcpConfigured <;>
        cases hpg : env.videoEnv.promptGen <;>
          simp [generate_video, h, hg, hpg]
  refine ⟨hgv, ?_, ?_⟩ <;>
    simp [process_task, process_core, mediaStage, generate_title, vpTruthy,
      truthyOpt, ht, hs, hp, htl, hgv, hip]

/-- Witness for `video_mode_generation_failure_not_fatal` at
`envBriefDown`. -/
theorem video_mode_generation_failure_not_fatal_witness :
    generate_video envBriefDown.videoEnv "Sum text." "a neon cityscape"
      "hello there world" "s2w" = (none, none) ∧
    (process_task envBriefDown "s2w" "video").raised = none ∧
    (process_task envBriefDown "s2w" "video").result = some
      { transcript := "hello there world", summary := "Sum text.",
        title := "City Title", generation_mode := "video",
        status := "completed",
        image_url := none, image_prompt := none,
        video_url := none, video_prompt := none } :=
  video_mode_generation_failure_not_fatal envBriefDown "s2w"
    "hello there world" "Sum text." "a neon cityscape" "City Title"
    "veo brief failed" rfl rfl rfl (by decide) (Or.inr (Or.inl rfl)) rfl

/-- A `pending:`-prefixed marker is never the empty string, so the
`if video_url:` gate includes it in the persisted result. -/
theorem pending_ne_empty (s : String) : ("pending:" ++ s) ≠ "" := by
  intro h
  have hl := congrArg String.length h
  rw [String.length_append] at hl
  simp at hl
  exact absurd hl.1 (by decide)

/-- C10: in `"video"` and `"both"` mode, when the video operation's wait
ends with the `timeout` (or `error`) status rather than raising,
`_generate_video` sets `video_url` to the `pending:<operation-id>`
marker, and the persisted `completed` result carries that marker as its
`video_url` (together with the structured brief as `video_prompt`) — in
`"both"` mode next to the image fields of a succeeding image branch: a
completed result's `video_url` may be a pending marker rather than a
media location, and only a `None` video is omitted.  (`wait_for_video`
can also end `submitted` per the caller's status list at
`services/audio_processor.py` line 706, but no path of `wait_for_video`
produces that status, so that case is unreachable.) -/
theorem video_pending_marker
    (env : PipelineEnv)
    (sid transcript summary ip url rp b64 ttl ttlv opName m : String)
    (brief : StructuredPrompt)
    (ht : env.transcribe = Except.ok transcript)
    (hs : (summarize transcript env.summarizeModel).1 = Except.ok summary)
    (hp : env.imagePromptGen summary = Except.ok ip)
    (hg : env.videoEnv.gcpConfigured = true)
    (hvp : env.videoEnv.promptGen = Except.ok brief)
    (hsub : env.videoEnv.submit = Except.ok ⟨some opName⟩)
    (hw : (wait_for_video env.videoEnv.polls opName 90 10).1 =
            WaitResult.timeout opName ∨
          (wait_for_video env.videoEnv.polls opName 90 10).1 =
            WaitResult.errorRes opName m)
    (htl : env.title (.text summary (some (.brief brief))) = Except.ok ttl)
    (hi : generate_image_from_prompt env.imageEnv ip summary sid =
      Except.ok (url, rp, b64))
    (hu : url ≠ "")
    (hb : b64 ≠ "")
    (htlv : env.title (.vision b64 summary) = Except.ok ttlv) :
    generate_video env.videoEnv summary ip transcript sid =
      (some ("pending:" ++ opName), some brief) ∧
    (process_task env sid "video").raised = none ∧
    (process_task env sid "video").result = some
      { transcript := transcript, summary := summary, title := ttl,
        generation_mode := "video", status := "completed",
        image_url := none, image_prompt := none,
        video_url := some ("pending:" ++ opName),
        video_prompt := some brief } ∧
    (process_task env sid "both").raised = none ∧
    (process_task env sid "both").result = some
      { transcript := transcript, summary := summary, title := ttlv,
        generation_mode := "both", status := "completed",
        image_url := some url, image_prompt := some ip,
        video_url := some ("pending:" ++ opName),
        video_prompt := some brief } := by
  have hgv : generate_video env.videoEnv summary ip transcript sid =
      (some ("pending:" ++ opName), some brief) := by
    rcases hw with h | h <;> simp [generate_video, hg, hvp, hsub, h]
  have hne := pending_ne_empty opName
  refine ⟨hgv, ?_, ?_, ?_, ?_⟩ <;>
    simp [process_task, process_core, mediaStage, generate_title, vpTruthy,
      truthyOpt, ht, hs, hp, htl, hgv, hne, hi, hu, hb, htlv]

/-- Witness for `video_pending_marker` at `envPendingW`, in both
modes. -/
theorem video_pending_marker_witness :
    generate_video envPendingW.videoEnv "Sum text." "a glowing forest"
      "hello there world" "s10" = (some ("pending:" ++ "op-123"), some briefW) ∧
    (process_task envPendingW "s10" "video").raised = none ∧
    (process_task envPendingW "s10" "video").result = some
      { transcript := "hello there world", summary := "Sum text.",
        title := "Forest Title", generation_mode := "video",
        status := "completed",
        image_url := none, image_prompt := none,
        video_url := some ("pending:" ++ "op-123"),
        video_prompt := some briefW } ∧
    (process_task envPendingW "s10" "both").raised = none ∧
    (process_task envPendingW "s10" "both").result = some
      { transcript := "hello there world", summary := "Sum text.",
        title := "Vision Forest Title", generation_mode := "both",
        status := "completed",
        image_url := some "generated_images/s10.png",
        image_prompt := some "a glowing forest",
        video_url := some ("pending:" ++ "op-123"),
        video_prompt := some briefW } :=
  video_pending_marker envPendingW "s10" "hello there world" "Sum text."
    "a glowing forest" "generated_images/s10.png" "revised forest" "QUJD"
    "Forest Title" "Vision Forest Title" "op-123" "unused-msg" briefW
    rfl rfl rfl rfl rfl rfl (Or.inl (by decide)) rfl rfl (by decide)
    (by decide) rfl

/-- C7: when the remote media service is configured and its upload
attempt raises — for image bytes in `_generate_image_from_prompt` and for
video bytes in `_generate_video`'s base64 branch — the exception is
caught, the bytes are routed to the local path keyed by the session id
and the media kind (`generated_images/<sid>.png` /
`generated_videos/<sid>.mp4`), and the step returns that local path as
the URL instead of raising. -/
theorem storage_remote_failure_falls_back_local
    (ienv : ImageEnv) (venv : VideoEnv) (d : ImageData)
    (prompt summary transcript sid b64 b64v mime m1 m2 opName : String)
    (brief : StructuredPrompt)
    (hic : ienv.cloudEnabled = true)
    (hiu : ienv.cloudUpload = Except.error m1)
    (hig : ienv.imagesGenerate = Except.ok d)
    (hx : image_b64_extract d = Except.ok b64)
    (hvc : venv.cloudEnabled = true)
    (hvu : venv.cloudUpload = Except.error m2)
    (hvg : venv.gcpConfigured = true)
    (hvb : venv.promptGen = Except.ok brief)
    (hvs : venv.submit = Except.ok ⟨some opName⟩)
    (hvw : (wait_for_video venv.polls opName 90 10).1 =
      WaitResult.completedB64 b64v mime) :
    generate_image_from_prompt ienv prompt summary sid =
      Except.ok (localImagePath sid, d.revisedPrompt.getD prompt, b64) ∧
    generate_video venv summary prompt transcript sid =
      (some (localVideoPath sid), some brief) := by
  constructor
  · simp [generate_image_from_prompt, hig, hx, hic, hiu]
  · simp [generate_video, hvg, hvb, hvs, hvw, hvc, hvu]

/-- Witness for `storage_remote_failure_falls_back_local` at session
`s7`. -/
theorem storage_remote_failure_falls_back_local_witness :
    generate_image_from_prompt ienvFallbackW "a prompt" "a summary" "s7" =
      Except.ok ("generated_images/s7.png", "a prompt", "QUJD") ∧
    generate_video venvFallbackW "a summary" "a prompt" "a transcript" "s7" =
      (some "generated_videos/s7.mp4", some briefW) :=
  storage_remote_failure_falls_back_local ienvFallbackW venvFallbackW
    ⟨none, "", "QUJD", none⟩ "a prompt" "a summary" "a transcript" "s7"
    "QUJD" "AAAA" "video/mp4" "cloudinary 500" "cloudinary video 500"
    "op-77" briefW rfl rfl rfl rfl rfl rfl rfl rfl rfl (by decide)

end PixelTalk
